import Mathlib

/-!
Shallow embedding of the core logic of src/main_script.py, a Streamlit
script that generates short-answer questions from a PDF, collects typed
or dictated answers, translates content, and grades responses.

External services (the chat-completion endpoint, the googletrans
translation service, the whisper transcription endpoint) are modelled as
oracle parameters: an Except value describes whether the call raised an
exception and, if not, what it returned.  Network activity is recorded
as an explicit event trace so that claims about which service is called,
and in which order, can be stated.
-/

namespace Pdf2sa

/-- A network event: one outbound call to the chat-completion endpoint
(llm) or to the googletrans translation service (google). -/
inductive Ev where
  | llm : Ev
  | google : Ev
deriving DecidableEq, Repr

/-- Python is dynamically typed: safe_translate returns a bare string on
the passthrough and fallback paths but a (string, bool) tuple on the
successful primary path (line 143: return translated, executed_ukrainian_prompt). -/
inductive TransResult where
  | str : String → TransResult
  | pair : String → Bool → TransResult
deriving DecidableEq, Repr

/-- Python str.strip with no argument: remove leading and trailing
whitespace characters.  Implemented over the character list. -/
def pyStrip (s : String) : String :=
  ⟨((s.data.dropWhile Char.isWhitespace).reverse.dropWhile Char.isWhitespace).reverse⟩

/-- Python str.lower, restricted to the ASCII letters that matter for
the English marker words used by _looks_english. -/
def pyLower (s : String) : String :=
  ⟨s.data.map Char.toLower⟩

/-- Substring test on character lists: some suffix of t starts with w. -/
def hasSubstr (w : List Char) : List Char → Bool
  | [] => w.isEmpty
  | c :: rest => w.isPrefixOf (c :: rest) || hasSubstr w rest

/-- Python substring test (w in t). -/
def pyContains (t w : String) : Bool :=
  hasSubstr w.data t.data

/-- The english_words list of _looks_english (line 61). -/
def english_words : List String :=
  ["the", "and", "identify", "make", "open"]

/-- _looks_english (lines 60-63): counts how many of the marker words
occur in the lowercased text and reports two or more hits. -/
def _looks_english (text : String) : Bool :=
  let hits := (english_words.map
    (fun word => if pyContains (pyLower text) word then 1 else 0)).sum
  hits ≥ 2

/-- The googletrans fallback inside safe_translate (lines 147-151):
translator.translate may raise (error), return a falsy object (ok none),
or return an object whose text field holds the translation (ok (some t));
the code returns translated.text if translated else text. -/
def googleFallbackResult (text : String)
    (google : Except Unit (Option String)) : String :=
  match google with
  | .ok (some t) => t
  | .ok none => text
  | .error _ => text

/-- safe_translate (lines 66-153).  Parameters text and targetName are
the Python arguments; code is the global target_language_code consulted
inside the function body.  The gpt oracle is the chat-completion call of
the primary path, the google oracle the googletrans call of the fallback.
Returns the (dynamically typed) result together with the trace of
network calls made. -/
def safe_translate (text targetName code : String)
    (gpt : Except Unit String) (google : Except Unit (Option String)) :
    TransResult × List Ev :=
  if text = "" ∨ pyStrip text = "" then (.str text, [])
  else if code = "en" then (.str text, [])
  else
    let executed_ukrainian_prompt := code = "uk"
    match gpt with
    | .ok content =>
      let translated := pyStrip content
      if _looks_english translated then
        -- raise ValueError("GPT returned English"), caught at line 144
        (.str (googleFallbackResult text google), [.llm, .google])
      else
        (.pair translated executed_ukrainian_prompt, [.llm])
    | .error _ =>
      (.str (googleFallbackResult text google), [.llm, .google])

/-- ui_translate (lines 156-180): googletrans first, chat-completion as
fallback.  A falsy googletrans result falls through to the fallback
without raising; a successful fallback returns the stripped completion
text unconditionally. -/
def ui_translate (text targetName code : String)
    (google : Except Unit (Option String)) (gpt : Except Unit String) :
    String × List Ev :=
  if text = "" ∨ pyStrip text = "" then (text, [])
  else if code = "en" then (text, [])
  else
    match google with
    | .ok (some t) => (t, [.google])
    | .ok none =>
      match gpt with
      | .ok content => (pyStrip content, [.google, .llm])
      | .error _ => (text, [.google, .llm])
    | .error _ =>
      match gpt with
      | .ok content => (pyStrip content, [.google, .llm])
      | .error _ => (text, [.google, .llm])

/-- language_map (lines 184-292): the selectbox options mapping language
display names to googletrans language codes. -/
def language_map : List (String × String) :=
  [("English", "en"), ("Afrikaans", "af"), ("Albanian", "sq"), ("Amharic", "am"),
   ("Arabic", "ar"), ("Armenian", "hy"), ("Azerbaijani", "az"), ("Basque", "eu"),
   ("Belarusian", "be"), ("Bengali", "bn"), ("Bosnian", "bs"), ("Bulgarian", "bg"),
   ("Catalan", "ca"), ("Cebuano", "ceb"), ("Chichewa", "ny"),
   ("Chinese (Simplified)", "zh-cn"), ("Chinese (Traditional)", "zh-tw"),
   ("Corsican", "co"), ("Croatian", "hr"), ("Czech", "cs"), ("Danish", "da"),
   ("Dutch", "nl"), ("Esperanto", "eo"), ("Estonian", "et"), ("Filipino", "tl"),
   ("Finnish", "fi"), ("French", "fr"), ("Frisian", "fy"), ("Galician", "gl"),
   ("Georgian", "ka"), ("German", "de"), ("Greek", "el"), ("Gujarati", "gu"),
   ("Haitian Creole", "ht"), ("Hausa", "ha"), ("Hawaiian", "haw"), ("Hebrew", "he"),
   ("Hindi", "hi"), ("Hmong", "hmn"), ("Hungarian", "hu"), ("Icelandic", "is"),
   ("Igbo", "ig"), ("Indonesian", "id"), ("Irish", "ga"), ("Italian", "it"),
   ("Japanese", "ja"), ("Javanese", "jw"), ("Kannada", "kn"), ("Kazakh", "kk"),
   ("Khmer", "km"), ("Korean", "ko"), ("Kurdish (Kurmanji)", "ku"), ("Kyrgyz", "ky"),
   ("Lao", "lo"), ("Latin", "la"), ("Latvian", "lv"), ("Lithuanian", "lt"),
   ("Luxembourgish", "lb"), ("Macedonian", "mk"), ("Malagasy", "mg"), ("Malay", "ms"),
   ("Malayalam", "ml"), ("Maltese", "mt"), ("Maori", "mi"), ("Marathi", "mr"),
   ("Mongolian", "mn"), ("Myanmar (Burmese)", "my"), ("Nepali", "ne"),
   ("Norwegian", "no"), ("Odia", "or"), ("Pashto", "ps"), ("Persian", "fa"),
   ("Polish", "pl"), ("Portuguese", "pt"), ("Punjabi", "pa"), ("Romanian", "ro"),
   ("Russian", "ru"), ("Samoan", "sm"), ("Scots Gaelic", "gd"), ("Serbian", "sr"),
   ("Sesotho", "st"), ("Shona", "sn"), ("Sindhi", "sd"), ("Sinhala", "si"),
   ("Slovak", "sk"), ("Slovenian", "sl"), ("Somali", "so"), ("Spanish", "es"),
   ("Sundanese", "su"), ("Swahili", "sw"), ("Swedish", "sv"), ("Tajik", "tg"),
   ("Tamil", "ta"), ("Telugu", "te"), ("Thai", "th"), ("Turkish", "tr"),
   ("Ukrainian", "uk"), ("Urdu", "ur"), ("Uyghur", "ug"), ("Uzbek", "uz"),
   ("Vietnamese", "vi"), ("Welsh", "cy"), ("Xhosa", "xh"), ("Yiddish", "yi"),
   ("Yoruba", "yo"), ("Zulu", "zu")]

/-- A session translation cache, the store behind the st.cache_data
decorator on safe_translate (line 67): results keyed by the argument
pair (text, target_language_name). -/
abbrev TransCache := List ((String × String) × TransResult)

/-- The st.cache_data decorator applied to safe_translate: on a cache
hit the stored result is returned and the function body never runs (no
network events); on a miss the body runs and the result is stored under
the argument pair.  Returns (result, updated cache, events). -/
def cached_safe_translate (cache : TransCache) (text targetName code : String)
    (gpt : Except Unit String) (google : Except Unit (Option String)) :
    TransResult × TransCache × List Ev :=
  match cache.lookup (text, targetName) with
  | some r => (r, cache, [])
  | none =>
    let (r, evs) := safe_translate text targetName code gpt google
    (r, ((text, targetName), r) :: cache, evs)

/-!
Question generation (lines 429-531).  The model's reply is parsed with
json.loads after stripping code fences; each parsed item is a dict read
with item.get.  A missing key yields None; the filter at lines 446-447
keeps an item only when both question and answer_key are truthy
(present and non-empty), and line 440-444 stores the stripped fields.
-/

/-- One parsed item of the generation reply: the three fields read with
item.get, where none models an absent key. -/
structure RawItem where
  topic : Option String
  question : Option String
  answer_key : Option String
deriving DecidableEq, Repr

/-- Python item.get(key, "") - a missing key defaults to the empty string. -/
def pyGetD (o : Option String) : String := o.getD ""

/-- Python truthiness of item.get(key): present and non-empty. -/
def pyTruthy (o : Option String) : Bool :=
  match o with
  | some s => s ≠ ""
  | none => false

/-- One normalized question of all_questions (lines 440-444). -/
structure QAItem where
  topic : String
  question : String
  answer_key : String
deriving DecidableEq, Repr

/-- The all_questions normalization (lines 439-448): keep the items with
truthy question and answer_key fields, stripping each stored field. -/
def normalize_questions (all_items : List RawItem) : List QAItem :=
  (all_items.filter (fun item => pyTruthy item.question && pyTruthy item.answer_key)).map
    (fun item =>
      { topic := pyStrip (pyGetD item.topic)
        question := pyStrip (pyGetD item.question)
        answer_key := pyStrip (pyGetD item.answer_key) })

/-- The question-generation step (lines 429-454): num_questions shapes
only the prompt text sent to the model; the parsed oracle is the
json.loads result of the reply (error when the call raised or the reply
was unparseable, in which case the except branch sets all_questions to
the empty list). -/
def question_generation (num_questions : Nat)
    (parsed : Except Unit (List RawItem)) : List QAItem :=
  match parsed with
  | .ok all_items => normalize_questions all_items
  | .error _ => []

/-!
Grading (score_short_answers, lines 623-687).  The whole body sits in
one try: the chat-completion call, the code-fence stripping, json.loads,
and the loop adding translated feedback fields.  Any exception lands in
the except branch, which shows an error and returns the empty list.
-/

/-- One question saved in session state (lines 463-501): English fields
plus the translated fields (empty when English is selected or the batch
translation failed for that item). -/
structure BilingualQuestion where
  question_en : String
  answer_key_en : String
  question_translated : String
  answer_key_translated : String
deriving DecidableEq, Repr

/-- One dict parsed from the grading reply, before the translated fields
are added (score may be absent: r.get is used downstream). -/
structure GradeRaw where
  score : Option Int
  feedback : Option String
  model_answer : Option String
deriving DecidableEq, Repr

/-- One grading result as returned by score_short_answers: the parsed
dict with the two translated fields added at lines 681-682.  The
translated fields hold whatever safe_translate returned, which is a
string or a (string, bool) tuple. -/
structure GradeResult where
  score : Option Int
  feedback : Option String
  model_answer : Option String
  feedback_translated : TransResult
  model_answer_translated : TransResult
deriving DecidableEq, Repr

/-- score_short_answers (lines 623-687).  The grading oracle is the
composite of the chat-completion call and json.loads: error when either
raised, ok with the parsed list otherwise.  translateFn is the cached
safe_translate applied to each feedback and model_answer string, which
never raises.  On any exception the function returns the empty list -
not a list of minimum scores. -/
def score_short_answers (user_answers : List String)
    (questions : List BilingualQuestion)
    (grading : Except Unit (List GradeRaw))
    (translateFn : String → TransResult) : List GradeResult :=
  match grading with
  | .error _ => []
  | .ok results =>
    results.map (fun r =>
      { score := r.score
        feedback := r.feedback
        model_answer := r.model_answer
        feedback_translated := translateFn (pyGetD r.feedback)
        model_answer_translated := translateFn (pyGetD r.model_answer) })

/-!
Answer collection with audio input (lines 533-618).  For each question i
one rerun executes: the audio block (lines 566-605), which transcribes a
new recording and appends the dictated text to the stored answer while
recording the recording's sha256 fingerprint, and then the unconditional
update block (lines 607-616), which recomputes the text-area value from
the stored answer and the dictated_text variable.
-/

/-- The per-question mutable state touched by the block: the text-area
value under the ans key, the parallel user_answers entry, and the last
processed audio fingerprint. -/
structure AnswerState where
  ans : String
  userAnswer : String
  lastHash : Option String
deriving DecidableEq, Repr

/-- Lines 607-616: existing_text is the stripped stored answer; when it
is truthy the dictated text is appended after a space, otherwise the
dictated text alone becomes the new value; both session-state entries
are overwritten.  This runs on every rerun, whatever the audio block
did. -/
def answer_update_block (s : AnswerState) (dictated_text : String) : AnswerState :=
  let existing_text := pyStrip s.ans
  let new_text := if existing_text ≠ "" then existing_text ++ " " ++ dictated_text
                  else dictated_text
  { s with ans := new_text, userAnswer := new_text }

/-- The audio block followed by the update block (lines 566-616) for one
question on one rerun.  audio_data is the recording bytes offered by the
widget (none when nothing was recorded); sha256 is the fingerprint
function; the transcribe oracle is the whisper call (error when it
raised).  The returned Bool reports whether the transcription service
was invoked. -/
def audio_answer_block (sha256 : List Nat → String) (s : AnswerState)
    (audio_data : Option (List Nat)) (transcribe : Except Unit String) :
    AnswerState × Bool :=
  match audio_data with
  | none => (answer_update_block s "", false)
  | some audio_bytes =>
    let audio_hash := sha256 audio_bytes
    if s.lastHash = some audio_hash then
      -- line 577: "This recording was already transcribed." - skip
      (answer_update_block s "", false)
    else
      match transcribe with
      | .error _ =>
        -- lines 604-605: the exception is caught and reported
        (answer_update_block s "", true)
      | .ok t =>
        let dictated_text := pyStrip t
        if dictated_text ≠ "" then
          let existing_text := pyStrip s.ans
          let new_text := if existing_text ≠ "" then
              existing_text ++ " " ++ dictated_text
            else dictated_text
          (answer_update_block
            { ans := new_text, userAnswer := new_text,
              lastHash := some audio_hash } dictated_text, true)
        else
          -- line 600: "Transcription returned empty text." warning
          (answer_update_block s "", true)

/-!
Session-state bookkeeping for the questions / user_answers invariant
(claims about lines 506-507, 539-540, 609-616, 783-787, 801-803).
-/

/-- The slice of st.session_state the invariant is about. -/
structure SessionState where
  questions : List BilingualQuestion
  user_answers : List String
deriving DecidableEq, Repr

/-- The operations of the script that write questions or user_answers. -/
inductive SessionOp where
  /-- Lines 506-507: save a freshly generated set and blank answers. -/
  | saveGenerated (qs : List BilingualQuestion)
  /-- Lines 539-540: re-create user_answers when its length disagrees. -/
  | resync
  /-- Lines 596 and 615: write user_answers at index i. -/
  | collectAnswer (i : Nat) (text : String)
  /-- Lines 783-787: load a previously stored set with blank answers. -/
  | loadPrevious (qs : List BilingualQuestion)
  /-- Lines 801-803: reset both lists for a new generation. -/
  | resetForNew

/-- One step of the session-state bookkeeping. -/
def apply_op (s : SessionState) : SessionOp → SessionState
  | .saveGenerated qs => ⟨qs, List.replicate qs.length ""⟩
  | .resync =>
    if s.user_answers.length ≠ s.questions.length then
      ⟨s.questions, List.replicate s.questions.length ""⟩
    else s
  | .collectAnswer i text => ⟨s.questions, s.user_answers.set i text⟩
  | .loadPrevious qs => ⟨qs, List.replicate qs.length ""⟩
  | .resetForNew => ⟨[], []⟩

/-- The initial session state (lines 37-41): both lists empty. -/
def initial_session : SessionState := ⟨[], []⟩

/-- The invariant: user_answers is as long as questions. -/
def answers_match (s : SessionState) : Prop :=
  s.user_answers.length = s.questions.length

instance (s : SessionState) : Decidable (answers_match s) := by
  unfold answers_match
  infer_instance

/-- Two renders of the same ui_translate label (the script calls
bilingual_text_ui on the same literal label on every rerun, line 318
among others).  ui_translate carries no cache, so the two requests are
two independent evaluations; the combined network trace is returned. -/
def ui_translate_twice (text targetName code : String)
    (google : Except Unit (Option String)) (gpt : Except Unit String) :
    List Ev :=
  (ui_translate text targetName code google gpt).2 ++
  (ui_translate text targetName code google gpt).2

end Pdf2sa

namespace Pdf2sa

/-- Claim C1 (counterexample): when the grading call fails on a batch of
one (question, expected, response) triple, score_short_answers returns
the empty list - not a one-entry list of minimum scores - so the output
length differs from the input length on the all-failure path. -/
theorem C1_counterexample :
    (score_short_answers ["fluid resuscitation"]
        [⟨"Q1", "A1", "", ""⟩] (.error ()) TransResult.str).length ≠ 1 := by
  decide

/-- Claim C1 (amended): if the grading call fails or its output cannot
be parsed as JSON, score_short_answers returns the empty list (after
showing an error), not a list of minimum-score entries; on a successful
parse the output length equals the length of the parsed reply, which is
never length-checked against the input. -/
theorem C1_failure_returns_empty (user_answers : List String)
    (questions : List BilingualQuestion)
    (translateFn : String → TransResult) (raws : List GradeRaw) :
    score_short_answers user_answers questions (.error ()) translateFn = [] ∧
    (score_short_answers user_answers questions (.ok raws) translateFn).length
      = raws.length := by
  refine ⟨rfl, ?_⟩
  simp [score_short_answers]

/-- Claim C2: re-submitting a recording whose sha256 fingerprint equals
the stored last_audio_hash skips the transcription call (the returned
flag is false), but the stored answer still changes: the unconditional
update block of lines 607-616 rewrites the answer "hello" to "hello "
(stripped text plus a separator space for the empty dictated_text).
Evaluated at the failing input of the code_bug report. -/
theorem C2_resubmission_mutates_answer :
    (audio_answer_block (fun _ => "h") ⟨"hello", "hello", some "h"⟩
        (some [1, 2, 3]) (.ok "ignored")).2 = false ∧
    (audio_answer_block (fun _ => "h") ⟨"hello", "hello", some "h"⟩
        (some [1, 2, 3]) (.ok "ignored")).1.ans = "hello " ∧
    (audio_answer_block (fun _ => "h") ⟨"hello", "hello", some "h"⟩
        (some [1, 2, 3]) (.ok "ignored")).1.ans ≠ "hello" := by
  decide

/-- Claim C7: when the transcription call raises, the error is caught
and reported, but the stored answer is not left as it was: the update
block of lines 607-616 rewrites "hello" to "hello ".  Evaluated at the
failing input of the code_bug report. -/
theorem C7_failure_mutates_answer :
    (audio_answer_block (fun _ => "h2") ⟨"hello", "hello", some "h1"⟩
        (some [9]) (.error ())).1.ans = "hello " ∧
    (audio_answer_block (fun _ => "h2") ⟨"hello", "hello", some "h1"⟩
        (some [9]) (.error ())).1.ans ≠ "hello" := by
  decide

/-- Claim C5: when the selected target language is English (the source
language, mapped to code en by language_map), both translation functions
return the input unchanged with an empty network trace, whatever the
services would have answered. -/
theorem C5_english_passthrough (text targetName : String)
    (gpt : Except Unit String) (google : Except Unit (Option String)) :
    safe_translate text targetName "en" gpt google = (.str text, []) ∧
    ui_translate text targetName "en" google gpt = (text, []) ∧
    language_map.lookup "English" = some "en" := by
  refine ⟨?_, ?_, rfl⟩
  · unfold safe_translate
    split
    · rfl
    · rw [if_pos rfl]
  · unfold ui_translate
    split
    · rfl
    · rw [if_pos rfl]

/-- Claim C10: an input that is empty or all whitespace is returned
unchanged by both translation functions, for every target language,
with no network call. -/
theorem C10_blank_passthrough (text targetName code : String)
    (gpt : Except Unit String) (google : Except Unit (Option String))
    (h : pyStrip text = "") :
    safe_translate text targetName code gpt google = (.str text, []) ∧
    ui_translate text targetName code google gpt = (text, []) := by
  unfold safe_translate ui_translate
  rw [if_pos (Or.inr h), if_pos (Or.inr h)]
  exact ⟨rfl, rfl⟩

/-- Claim C3 (counterexample): with the translation service raising and
the LLM fallback returning the empty completion, ui_translate returns
the empty string, not the original text "Hello": a non-raising empty
fallback result is returned as-is, contradicting the claim that an
empty result counts as a failure that restores the original. -/
theorem C3_counterexample :
    (ui_translate "Hello" "Ukrainian" "uk" (.error ()) (.ok "")).1 ≠ "Hello" := by
  decide

/-- Claim C3 (amended): if every tried path raises - and, for
safe_translate, an English-looking LLM completion or a falsy
translation-service object also counts as a failed path - the original
text is returned unchanged, and no error escapes (the functions are
total).  An empty string returned without an exception by the LLM path
is treated as success, not failure. -/
theorem C3_fallback_to_original (text targetName code : String)
    (google : Except Unit (Option String)) (s : String)
    (hgoogle : google = .error () ∨ google = .ok none)
    (hs : _looks_english (pyStrip s) = true) :
    (safe_translate text targetName code (.error ()) google).1 = .str text ∧
    (safe_translate text targetName code (.ok s) google).1 = .str text ∧
    (ui_translate text targetName code google (.error ())).1 = text := by
  have hfb : googleFallbackResult text google = text := by
    rcases hgoogle with h | h <;> rw [h] <;> rfl
  refine ⟨?_, ?_, ?_⟩
  · unfold safe_translate
    split
    · rfl
    · split
      · rfl
      · simp [hfb]
  · unfold safe_translate
    split
    · rfl
    · split
      · rfl
      · simp [hs, hfb]
  · unfold ui_translate
    split
    · rfl
    · split
      · rfl
      · rcases hgoogle with h | h <;> rw [h]

/-- Claim C3 (witness): concrete all-failure run - the translation
service raises, the safe_translate LLM completion looks English - both
functions hand back the original text. -/
theorem C3_witness :
    (safe_translate "Hello" "Ukrainian" "uk" (.error ()) (.error ())).1
        = .str "Hello" ∧
    (ui_translate "Hello" "Ukrainian" "uk" (.error ()) (.error ())).1
        = "Hello" := by
  have h := C3_fallback_to_original "Hello" "Ukrainian" "uk" (.error ())
    "the cat and the dog" (Or.inl rfl) (by decide)
  exact ⟨h.1, h.2.2⟩

/-- Claim C4 (counterexample): with one question requested and a parsed
reply of two valid items, the question-generation step returns both
items: the output is not truncated to the requested count. -/
theorem C4_counterexample :
    ¬ ((question_generation 1 (.ok
        [⟨some "t1", some "q1", some "a1"⟩,
         ⟨some "t2", some "q2", some "a2"⟩])).length ≤ 1) := by
  decide

/-- Claim C4 (amended): the question-generation step returns one pair
per parsed item whose raw question and answer_key are truthy, with the
fields stripped: the count never exceeds the number of parsed items but
is not truncated to the requested N, and the returned fields are
non-empty provided no raw field is non-empty yet all whitespace (the
truthiness filter runs before stripping). -/
theorem C4_no_truncation (num_questions : Nat) (all_items : List RawItem)
    (hws : ∀ item ∈ all_items,
      (pyGetD item.question = "" ∨ pyStrip (pyGetD item.question) ≠ "") ∧
      (pyGetD item.answer_key = "" ∨ pyStrip (pyGetD item.answer_key) ≠ "")) :
    (question_generation num_questions (.ok all_items)).length
      = (all_items.filter
          (fun item => pyTruthy item.question && pyTruthy item.answer_key)).length ∧
    (question_generation num_questions (.ok all_items)).length
      ≤ all_items.length ∧
    ∀ q ∈ question_generation num_questions (.ok all_items),
      q.question ≠ "" ∧ q.answer_key ≠ "" := by
  refine ⟨by simp [question_generation, normalize_questions], ?_, ?_⟩
  · calc (question_generation num_questions (.ok all_items)).length
        = (all_items.filter
            (fun item => pyTruthy item.question && pyTruthy item.answer_key)).length := by
          simp [question_generation, normalize_questions]
      _ ≤ all_items.length := List.length_filter_le _ _
  · intro q hq
    simp only [question_generation, normalize_questions, List.mem_map,
      List.mem_filter] at hq
    obtain ⟨item, ⟨hmem, htruthy⟩, rfl⟩ := hq
    rw [Bool.and_eq_true] at htruthy
    obtain ⟨hq1, hq2⟩ := htruthy
    have h1 : pyGetD item.question ≠ "" := by
      cases hitem : item.question with
      | none => rw [hitem] at hq1; simp [pyTruthy] at hq1
      | some s =>
        rw [hitem] at hq1
        simp only [pyTruthy] at hq1
        simpa [pyGetD, hitem] using hq1
    have h2 : pyGetD item.answer_key ≠ "" := by
      cases hitem : item.answer_key with
      | none => rw [hitem] at hq2; simp [pyTruthy] at hq2
      | some s =>
        rw [hitem] at hq2
        simp only [pyTruthy] at hq2
        simpa [pyGetD, hitem] using hq2
    have hw := hws item hmem
    constructor
    · rcases hw.1 with h | h
      · exact absurd h h1
      · exact h
    · rcases hw.2 with h | h
      · exact absurd h h2
      · exact h

/-- Claim C4 (witness): a parsed reply of two substantial items with one
question requested satisfies the whitespace side condition, and the step
keeps both items with non-empty stripped fields. -/
theorem C4_witness :
    (question_generation 1 (.ok
        [⟨some "vascular", some " What vessel is injured? ", some " The splenic artery "⟩,
         ⟨none, some "What is the first step?", some "Control the airway"⟩])).length = 2 ∧
    ∀ q ∈ question_generation 1 (.ok
        [⟨some "vascular", some " What vessel is injured? ", some " The splenic artery "⟩,
         ⟨none, some "What is the first step?", some "Control the airway"⟩]),
      q.question ≠ "" ∧ q.answer_key ≠ "" := by
  have h := C4_no_truncation 1
    [⟨some "vascular", some " What vessel is injured? ", some " The splenic artery "⟩,
     ⟨none, some "What is the first step?", some "Control the airway"⟩]
    (by decide)
  exact ⟨by decide, h.2.2⟩

/-- Claim C6 (counterexample): a request for a non-source language in
which the chat-completion primary path of safe_translate succeeds with
a non-English-looking completion: the network trace is exactly one LLM
call and the hosted translation service is never contacted, so the
translation service is not tried first in safe_translate. -/
theorem C6_counterexample :
    (safe_translate "Bonjour tout le monde" "French" "fr"
        (.ok "Bonjour a tous") (.ok (some "ignored"))).2 = [Ev.llm] := by
  decide

/-- Claim C6 (amended): for a non-blank text and a non-source language,
ui_translate contacts the translation service first and calls the LLM
only when that path yields no text, while safe_translate contacts the
LLM first and calls the translation service only when the LLM path
fails (raises or returns an English-looking completion). -/
theorem C6_order (text targetName code : String)
    (gpt : Except Unit String) (google : Except Unit (Option String))
    (hblank : ¬ (text = "" ∨ pyStrip text = "")) (hen : code ≠ "en") :
    (safe_translate text targetName code gpt google).2.head? = some Ev.llm ∧
    (ui_translate text targetName code google gpt).2.head? = some Ev.google ∧
    (∀ t, google = .ok (some t) →
      (ui_translate text targetName code google gpt).2 = [Ev.google]) ∧
    (∀ s, gpt = .ok s → _looks_english (pyStrip s) = false →
      (safe_translate text targetName code gpt google).2 = [Ev.llm]) := by
  refine ⟨?_, ?_, ?_, ?_⟩
  · unfold safe_translate
    rw [if_neg hblank, if_neg hen]
    cases gpt with
    | ok content =>
      simp only
      split <;> rfl
    | error e => rfl
  · unfold ui_translate
    rw [if_neg hblank, if_neg hen]
    rcases google with e | (_ | t) <;> · first
      | rfl
      | (cases gpt <;> rfl)
  · intro t ht
    unfold ui_translate
    rw [if_neg hblank, if_neg hen, ht]
  · intro s hsv hlook
    unfold safe_translate
    rw [if_neg hblank, if_neg hen, hsv]
    simp [hlook]

/-- Claim C6 (witness): with a non-blank text and Ukrainian selected,
the traces start with the LLM for safe_translate and with the
translation service for ui_translate. -/
theorem C6_witness :
    (safe_translate "Hello there" "Ukrainian" "uk"
        (.error ()) (.ok (some "Привіт"))).2.head? = some Ev.llm ∧
    (ui_translate "Hello there" "Ukrainian" "uk"
        (.ok (some "Привіт")) (.error ())).2 = [Ev.google] := by
  have h := C6_order "Hello there" "Ukrainian" "uk" (.error ())
    (.ok (some "Привіт")) (by decide) (by decide)
  exact ⟨h.1, h.2.2.1 "Привіт" rfl⟩

/-- Claim C8: starting from the initial session state, every sequence of
question/answer bookkeeping operations (saving a generated set, the
length re-sync, collecting an answer, loading a previous set, resetting
for a new set) leaves user_answers exactly as long as questions. -/
theorem C8_invariant (ops : List SessionOp) :
    answers_match (List.foldl apply_op initial_session ops) := by
  have step : ∀ (s : SessionState) (op : SessionOp),
      answers_match s → answers_match (apply_op s op) := by
    intro s op h
    cases op with
    | saveGenerated qs => simp [apply_op, answers_match]
    | resync =>
      simp only [apply_op]
      split
      · simp [answers_match]
      · exact h
    | collectAnswer i text =>
      simpa [apply_op, answers_match] using h
    | loadPrevious qs => simp [apply_op, answers_match]
    | resetForNew => simp [apply_op, answers_match]
  have main : ∀ (ops : List SessionOp) (s : SessionState),
      answers_match s → answers_match (List.foldl apply_op s ops) := by
    intro ops
    induction ops with
    | nil => exact fun s h => h
    | cons op rest ih => exact fun s h => ih (apply_op s op) (step s op h)
  exact main ops initial_session rfl

/-- Claim C9 (counterexample): ui_translate carries no cache: two
renders of the identical (text, target-language) pair each contact the
translation service, so the pair is translated twice within one
session, not at most once. -/
theorem C9_counterexample :
    (ui_translate_twice "📄 Upload a PDF file" "Ukrainian" "uk"
        (.ok (some "Завантажте PDF")) (.ok "x")).length = 2 := by
  decide

/-- Claim C9 (amended): only safe_translate is memoized, through the
st.cache_data decorator keyed by the (text, target_language_name)
argument pair: a repeated pair is served from the cache with no network
call, and a miss stores its result under that pair; ui_translate is
uncached and performs network calls on every request for a non-blank
text and non-source language. -/
theorem C9_memoization (cache : TransCache) (text targetName code : String)
    (gpt : Except Unit String) (google : Except Unit (Option String))
    (hhit : (cache.lookup (text, targetName)).isSome = true)
    (hblank : pyStrip text ≠ "") (hen : code ≠ "en") :
    (cached_safe_translate cache text targetName code gpt google).2.2 = [] ∧
    (∀ c : TransCache, c.lookup (text, targetName) = none →
      ((cached_safe_translate c text targetName code gpt google).2.1).lookup
          (text, targetName)
        = some (cached_safe_translate c text targetName code gpt google).1) ∧
    (ui_translate text targetName code google gpt).2 ≠ [] := by
  refine ⟨?_, ?_, ?_⟩
  · unfold cached_safe_translate
    cases hc : cache.lookup (text, targetName) with
    | some r => rfl
    | none => rw [hc] at hhit; simp at hhit
  · intro c hc
    unfold cached_safe_translate
    rw [hc]
    rcases hst : safe_translate text targetName code gpt google with ⟨r, evs⟩
    simp [List.lookup]
  · have hb : ¬ (text = "" ∨ pyStrip text = "") := by
      rintro (h | h)
      · exact hblank (by rw [h]; rfl)
      · exact hblank h
    unfold ui_translate
    rw [if_neg hb, if_neg hen]
    rcases google with e | (_ | t)
    · cases gpt <;> simp
    · cases gpt <;> simp
    · simp

/-- Claim C9 (witness): with the pair already cached, the cached
safe_translate answers from the cache with an empty trace, while an
identical ui_translate request still produces network traffic. -/
theorem C9_witness :
    (cached_safe_translate [(("Hello", "Ukrainian"), .str "Привіт")]
        "Hello" "Ukrainian" "uk" (.ok "x") (.ok (some "y"))).2.2 = [] ∧
    (ui_translate "Hello" "Ukrainian" "uk" (.ok (some "y")) (.ok "x")).2 ≠ [] := by
  have h := C9_memoization [(("Hello", "Ukrainian"), .str "Привіт")]
    "Hello" "Ukrainian" "uk" (.ok "x") (.ok (some "y"))
    (by decide) (by decide) (by decide)
  exact ⟨h.1, h.2.2⟩

/-- Claim C10 (witness): the two-space string is blank and is passed
through by safe_translate even though both services would answer. -/
theorem C10_witness :
    pyStrip "  " = "" ∧
    safe_translate "  " "Ukrainian" "uk" (.ok "x") (.ok (some "y"))
      = (.str "  ", []) := by
  refine ⟨by decide, ?_⟩
  exact (C10_blank_passthrough "  " "Ukrainian" "uk" (.ok "x")
    (.ok (some "y")) (by decide)).1

end Pdf2sa
